import Mathlib

/-!
Verification development for the core of the rr record-and-replay engine:
a shallow embedding of src/src/PerfCounters.cc, src/src/diverter.cc and
src/src/replayer/replayer.c, with theorems settling the specification
claims about the performance-counter abstraction, the diversion session
refcounting, and the replay dispatch loop.
-/

namespace RR

/-! ## PerfCounters (src/src/PerfCounters.cc)

The process-global probe results and configuration flags consulted by the
counter code.  In the source, has_ioc_period_bug and has_kvm_in_txcp_bug
cache a one-shot probe; both return false when running under rr
(PerfCounters.cc lines 288-363).  We record the raw probe outcomes and the
nesting flag, and derive the functions from them. -/

structure PmuEnv where
  /-- outcome the IOC_PERIOD probe would report (PerfCounters.cc 326-363) -/
  ioc_period_probe_bug : Bool
  /-- outcome the KVM IN_TXCP probe would report (PerfCounters.cc 288-324) -/
  kvm_in_txcp_probe_bug : Bool
  /-- running_under_rr(): the engine is nested inside another rr -/
  running_under_rr : Bool
  /-- extra_perf_counters_enabled() configuration -/
  extra_perf_counters_enabled : Bool
  /-- Flags::get().force_things -/
  force_things : Bool
deriving DecidableEq

/-- PerfCounters.cc 326-342: the probe result, short-circuited to false when
running under rr. -/
def has_ioc_period_bug (env : PmuEnv) : Bool :=
  if env.running_under_rr then false else env.ioc_period_probe_bug

/-- PerfCounters.cc 288-301: the probe result, short-circuited to false when
running under rr. -/
def has_kvm_in_txcp_bug (env : PmuEnv) : Bool :=
  if env.running_under_rr then false else env.kvm_in_txcp_probe_bug

/-- PerfCounters.cc 212: activate_useless_counter =
has_ioc_period_bug() and not running_under_rr(). -/
def activate_useless_counter (env : PmuEnv) : Bool :=
  has_ioc_period_bug env && !env.running_under_rr

/-- PerfCounters.cc 372-376. -/
def always_recreate_counters (env : PmuEnv) : Bool :=
  has_ioc_period_bug env || has_kvm_in_txcp_bug env

/-- Per-task counter state.  Each fd_* field is true when that ScopedFd is
open.  interrupt_period records the sample period most recently programmed
into the interrupt counter (via attr.sample_period at creation, or the
PERF_EVENT_IOC_PERIOD ioctl).  generation counts how many times the counters
have been created from scratch (the not-started branch of reset,
PerfCounters.cc 387-438), so that recreation is observable in the model. -/
structure PerfCountersState where
  tid : Nat
  started : Bool
  counting : Bool
  fd_ticks_interrupt : Bool
  fd_ticks_measure : Bool
  fd_ticks_in_transaction : Bool
  fd_useless_counter : Bool
  fd_hw_interrupts : Bool
  fd_instructions_retired : Bool
  fd_page_faults : Bool
  interrupt_period : Nat
  generation : Nat
deriving DecidableEq

/-- PerfCounters::reset (PerfCounters.cc 378-472). -/
def reset (env : PmuEnv) (s : PerfCountersState) (ticks_period : Nat) :
    PerfCountersState :=
  -- lines 381-385: a 0 period is turned into a very big number unless
  -- counters are recreated each time anyway
  let ticks_period :=
    if ticks_period = 0 ∧ always_recreate_counters env = false then 2 ^ 60
    else ticks_period
  if s.started = false then
    -- lines 387-438: create all counters from scratch
    { s with
      started := true
      counting := true
      fd_ticks_interrupt := true
      -- lines 394-416: exactly one of in_transaction / measure, by bug probe
      fd_ticks_in_transaction := has_kvm_in_txcp_bug env
      fd_ticks_measure := !has_kvm_in_txcp_bug env
      -- lines 418-422
      fd_useless_counter :=
        if activate_useless_counter env = true ∧ s.fd_useless_counter = false
        then true else s.fd_useless_counter
      -- lines 432-438
      fd_hw_interrupts := env.extra_perf_counters_enabled
      fd_instructions_retired := env.extra_perf_counters_enabled
      fd_page_faults := env.extra_perf_counters_enabled
      interrupt_period := ticks_period
      generation := s.generation + 1 }
  else
    -- lines 439-468: ioctl RESET / PERIOD / ENABLE on the existing fds
    { s with
      started := true
      counting := true
      interrupt_period := ticks_period }

/-- PerfCounters::stop (PerfCounters.cc 479-492): close every fd. -/
def stop (s : PerfCountersState) : PerfCountersState :=
  if s.started = false then s
  else
    { s with
      started := false
      fd_ticks_interrupt := false
      fd_ticks_measure := false
      fd_page_faults := false
      fd_hw_interrupts := false
      fd_instructions_retired := false
      fd_useless_counter := false
      fd_ticks_in_transaction := false }

/-- PerfCounters::stop_counting (PerfCounters.cc 494-507). -/
def stop_counting (env : PmuEnv) (s : PerfCountersState) : PerfCountersState :=
  let s := { s with counting := false }
  if always_recreate_counters env = true then stop s
  else s  -- the ioctl DISABLEs do not change any modelled state

/-- The values the kernel would deliver on read() of each counter fd. -/
structure CounterReadings where
  interrupt_val : Nat
  measure_val : Nat
  in_transaction_val : Nat
deriving DecidableEq

/-- PerfCounters::read_ticks (PerfCounters.cc 509-548).  none models the
fatal ASSERT on a non-zero IN_TX reading without force_things
(lines 514-528); some v is a normal return of v. -/
def read_ticks (env : PmuEnv) (s : PerfCountersState) (r : CounterReadings) :
    Option Nat :=
  if s.started = false ∨ s.counting = false then some 0
  else if s.fd_ticks_in_transaction = true ∧ 0 < r.in_transaction_val ∧
      env.force_things = false then none
  else if s.fd_ticks_measure = false then some r.interrupt_val
  else if r.interrupt_val < r.measure_val then some r.interrupt_val
  else some r.measure_val

/-! Concrete environments and states used by witnesses and counterexamples. -/

/-- Environment in which neither bug probe reported a bug. -/
def envNoBugs : PmuEnv :=
  { ioc_period_probe_bug := false, kvm_in_txcp_probe_bug := false,
    running_under_rr := false, extra_perf_counters_enabled := false,
    force_things := false }

/-- Environment in which the IOC_PERIOD probe reported a bug. -/
def envIocBug : PmuEnv :=
  { ioc_period_probe_bug := true, kvm_in_txcp_probe_bug := false,
    running_under_rr := false, extra_perf_counters_enabled := false,
    force_things := false }

/-- A freshly constructed, never-started counter (PerfCounters.cc 239-242). -/
def pcFresh : PerfCountersState :=
  { tid := 1, started := false, counting := false,
    fd_ticks_interrupt := false, fd_ticks_measure := false,
    fd_ticks_in_transaction := false, fd_useless_counter := false,
    fd_hw_interrupts := false, fd_instructions_retired := false,
    fd_page_faults := false, interrupt_period := 0, generation := 0 }

/-- A started, counting counter with the measure counter open. -/
def pcRunning : PerfCountersState :=
  { tid := 1, started := true, counting := true,
    fd_ticks_interrupt := true, fd_ticks_measure := true,
    fd_ticks_in_transaction := false, fd_useless_counter := false,
    fd_hw_interrupts := false, fd_instructions_retired := false,
    fd_page_faults := false, interrupt_period := 100, generation := 1 }

/-- A started, counting counter in the IOC_PERIOD-bug configuration, with
the useless cycles counter open. -/
def pcRunningBug : PerfCountersState :=
  { tid := 1, started := true, counting := true,
    fd_ticks_interrupt := true, fd_ticks_measure := true,
    fd_ticks_in_transaction := false, fd_useless_counter := true,
    fd_hw_interrupts := false, fd_instructions_retired := false,
    fd_page_faults := false, interrupt_period := 100, generation := 7 }

/-- Readings where the measure counter exceeded the interrupt counter. -/
def rdMeasureHigh : CounterReadings :=
  { interrupt_val := 3, measure_val := 5, in_transaction_val := 0 }

/-! ## Diverter (src/src/diverter.cc)

The diversion event loop is driven by an abstract stream of debugger
requests; only the request classes that the loop inspects are

distinguished. -/

inductive DbgRequestType where
  | resume_continue
  | resume_step
  | restart
  | read_siginfo
  | write_siginfo
  | set_query_thread
  | set_sw_break
  | set_hw_break
  | set_rd_watch
  | set_wr_watch
  | set_rdwr_watch
  | remove_sw_break
  | remove_hw_break
  | remove_rd_watch
  | remove_wr_watch
  | remove_rdwr_watch
  | other_query
deriving DecidableEq

/-- dbg_is_resume_request: DREQ_CONTINUE and DREQ_STEP (the diverter handles
DREQ_RESTART separately, diverter.cc 41-42, so it is not resume-class). -/
def is_resume_request : DbgRequestType → Bool
  | .resume_continue => true
  | .resume_step => true
  | _ => false

/-- The breakpoint/watchpoint request classes of diverter.cc 68-77. -/
def is_breakpoint_request : DbgRequestType → Bool
  | .set_sw_break => true
  | .set_hw_break => true
  | .set_rd_watch => true
  | .set_wr_watch => true
  | .set_rdwr_watch => true
  | .remove_sw_break => true
  | .remove_hw_break => true
  | .remove_rd_watch => true
  | .remove_wr_watch => true
  | .remove_rdwr_watch => true
  | _ => false

/-- What one iteration of the request loop in process_debugger_requests
(diverter.cc 30-92) does with a single request. -/
inductive StepResult where
  /-- the request was serviced; loop again with the new refcount -/
  | continueLoop (refcount : Int)
  /-- a resume-class request with a live diversion: return the task -/
  | resumeTask (refcount : Int)
  /-- return nullptr: the diversion is over -/
  | endDiversion (refcount : Int)
  /-- the assert(diversion_refcount > 0) in DREQ_WRITE_SIGINFO fails -/
  | assertFail
deriving DecidableEq

/-- One iteration of the request loop of process_debugger_requests
(diverter.cc 30-92), with the global diversion_refcount threaded through. -/
def process_one_request (refcount : Int) (req : DbgRequestType) : StepResult :=
  if is_resume_request req = true then
    -- lines 33-38
    if refcount = 0 then .endDiversion refcount else .resumeTask refcount
  else
    match req with
    | .restart => .endDiversion refcount            -- lines 41-42
    | .read_siginfo => .continueLoop (refcount + 1) -- lines 44-52
    | .write_siginfo =>                             -- lines 58-66
      if 0 < refcount then .continueLoop (refcount - 1) else .assertFail
    | .set_query_thread => .continueLoop refcount   -- lines 53-57
    | req =>
      -- lines 68-85: a breakpoint request in a dying diversion returns to
      -- the replay; lines 87-91: everything else is dispatched and loops
      if is_breakpoint_request req = true ∧ refcount = 0 then
        .endDiversion refcount
      else .continueLoop refcount

/-- Result of process_debugger_requests on a finite request stream. -/
inductive PdrResult where
  /-- a resume-class request arrived with a live diversion -/
  | resumed (refcount : Int) (rest : List DbgRequestType)
  /-- the function returned nullptr (diversion ends) -/
  | ended (refcount : Int) (rest : List DbgRequestType)
  /-- the assert in DREQ_WRITE_SIGINFO failed -/
  | asserted
  /-- the modelled request stream ran out -/
  | starved (refcount : Int)
deriving DecidableEq

/-- process_debugger_requests (diverter.cc 28-93) over a request stream. -/
def process_debugger_requests : Int → List DbgRequestType → PdrResult
  | refcount, [] => .starved refcount
  | refcount, req :: rest =>
    match process_one_request refcount req with
    | .continueLoop r => process_debugger_requests r rest
    | .resumeTask r => .resumed r rest
    | .endDiversion r => .ended r rest
    | .assertFail => .asserted

/-- Session::BreakReason of a diversion step. -/
inductive BreakReason where
  | break_none
  | break_signal (sig : Nat)
  | break_watchpoint (addr : Nat)
  | break_breakpoint
deriving DecidableEq

/-- DiversionSession::diversion_step outcome (diverter.cc 120-148). -/
inductive DiversionStatus where
  | diversion_exited
  | diversion_continue (reason : BreakReason)
deriving DecidableEq

/-- How divert (diverter.cc 102-155) terminates. -/
inductive DivertOutcome where
  /-- the terminating assert(diversion_refcount == 0) held, all diversion
  tasks were killed and the global session handle was cleared -/
  | finished
  /-- the terminating assert(diversion_refcount == 0) fails: divert ended
  while the refcount was still nonzero -/
  | assertRefcountFail (refcount : Int)
  /-- the assert(diversion_refcount > 0) in DREQ_WRITE_SIGINFO failed -/
  | assertWriteFail
  /-- the modelled request or step stream ran out -/
  | starved
deriving DecidableEq

/-- The event loop of divert (diverter.cc 111-149), consuming one diversion
step result per resumed iteration. -/
def divert_loop : Int → List DbgRequestType → List DiversionStatus →
    DivertOutcome
  | refcount, reqs, steps =>
    match process_debugger_requests refcount reqs with
    | .asserted => .assertWriteFail
    | .starved _ => .starved
    | .ended r _ =>
      -- lines 150-155: break out of the loop, then
      -- assert(diversion_refcount == 0), kill_all_tasks, session = nullptr
      if r = 0 then .finished else .assertRefcountFail r
    | .resumed r rest =>
      match steps with
      | [] => .starved
      | .diversion_exited :: _ => .finished  -- lines 122-126: refcount = 0
      | .diversion_continue _ :: srest => divert_loop r rest srest

/-- diverter.cc 108: the refcount a fresh diversion starts with. -/
def divert_initial_refcount : Int := 1

/-- divert (diverter.cc 102-155). -/
def divert (reqs : List DbgRequestType) (steps : List DiversionStatus) :
    DivertOutcome :=
  divert_loop divert_initial_refcount reqs steps

/-! ## Replayer (src/src/replayer/replayer.c) -/

/-- replayer.c 46 -/
def MAX_NUM_BREAKPOINTS : Nat := 128

/-- replayer.c 60: the x86 trap byte 0xCC -/
def int_3_insn : Nat := 0xCC

/-- One entry of the breakpoint table (replayer.c 55-58).  A null (0)
address marks an unallocated slot. -/
structure Breakpoint where
  addr : Nat
  overwritten_data : Nat
deriving DecidableEq

/-- find_breakpoint (replayer.c 168-178): first entry with this address. -/
def find_breakpoint (a : Nat) : List Breakpoint → Option Breakpoint
  | [] => none
  | bp :: rest => if bp.addr = a then some bp else find_breakpoint a rest

/-- set_sw_breakpoint (replayer.c 180-198): claim the first unallocated
slot, record the overwritten byte read from tracee memory, and write the
trap byte.  none models the assert("Sorry, ran out of breakpoints") abort;
otherwise the new table is returned together with the writes made to the
tracee's memory. -/
def set_sw_breakpoint (mem : Nat → Nat) (a : Nat) :
    List Breakpoint → Option (List Breakpoint × List (Nat × Nat))
  | [] => none
  | bp :: rest =>
    if bp.addr = 0 then
      some ({ addr := a, overwritten_data := mem a } :: rest,
            [(a, int_3_insn)])
    else
      match set_sw_breakpoint mem a rest with
      | none => none
      | some (rest2, ws) => some (bp :: rest2, ws)

/-- remove_sw_breakpoint (replayer.c 200-218): find the entry, write the
saved byte back, and zero the entry; when no entry matches, warn (the Bool
component) and change nothing. -/
def remove_sw_breakpoint (a : Nat) :
    List Breakpoint → List Breakpoint × List (Nat × Nat) × Bool
  | [] => ([], [], true)
  | bp :: rest =>
    if bp.addr = a then
      ({ addr := 0, overwritten_data := 0 } :: rest,
       [(bp.addr, bp.overwritten_data)], false)
    else
      let r := remove_sw_breakpoint a rest
      (bp :: r.1, r.2.1, r.2.2)

/-- Number of table entries carrying a given address. -/
def count_addr (t : List Breakpoint) (a : Nat) : Nat :=
  (t.filter fun bp => bp.addr == a).length

/-- The spec's uniqueness invariant: at most one entry per non-null
address. -/
def addr_unique (t : List Breakpoint) : Prop :=
  ∀ a, a ≠ 0 → count_addr t a ≤ 1

/-- The zero-initialized static breakpoint table (replayer.c 55-58). -/
def breakpoint_table_init : List Breakpoint :=
  List.replicate MAX_NUM_BREAKPOINTS { addr := 0, overwritten_data := 0 }

/-- A fully occupied table: every slot holds a non-null address. -/
def bp_full_table : List Breakpoint :=
  List.replicate MAX_NUM_BREAKPOINTS { addr := 4096, overwritten_data := 144 }

/-- Tracee memory whose every byte is 0x90. -/
def mem_nop : Nat → Nat := fun _ => 144

/-- replayer.c signal numbers (x86 Linux). -/
def SIGCHLD : Nat := 17

/-- gdb-mandated trap signal number. -/
def SIGTRAP : Nat := 5

/-- i386 syscall number of execve. -/
def SYS_execve : Nat := 11

/-- Result of cont_syscall_boundary (replayer.c 364-406). -/
inductive ContOutcome where
  /-- returned 0: the syscall boundary was reached -/
  | boundary_reached
  /-- returned nonzero: stopped at a SIGTRAP -/
  | stopped_at_trap
  /-- entered emergency_debug on an unrecorded signal -/
  | emergency_debug (sig : Nat)
  /-- the modelled stream of waitpid signals ran out -/
  | starved
deriving DecidableEq

/-- cont_syscall_boundary (replayer.c 364-406), abstracted over the pending
signal observed after each ptrace advance and waitpid. -/
def cont_syscall_boundary : List Nat → ContOutcome
  | [] => .starved
  | sig :: rest =>
    if sig = 0 then .boundary_reached
    else if sig = SIGCHLD then cont_syscall_boundary rest
    else if sig = SIGTRAP then .stopped_at_trap
    else .emergency_debug sig

/-- The trace frame's stop reason as dispatched by replay_one_trace_frame
(replayer.c 533-566): the USR_* pseudo-events, a negative value (a recorded
signal), or a syscall number together with the recorded state. -/
inductive StopReason where
  | usr_init_scratch_mem
  | usr_exit
  | usr_flush
  | recorded_signal (sig : Nat)
  | recorded_syscall (no : Nat) (is_exit_state : Bool)
deriving DecidableEq

/-- The inputs of one trace frame consumed by replay_one_trace_frame. -/
structure TraceFrame where
  stop_reason : StopReason
  global_time : Nat
deriving DecidableEq

/-- Observable effects of replay_one_trace_frame on one frame. -/
structure FrameResult where
  /-- rep_sched_deregister_thread ran (replayer.c 544-547) -/
  deregistered : Bool
  /-- replay_init_scratch_memory ran (replayer.c 533-543) -/
  scratch_initialized : Bool
  /-- rep_process_flush ran (replayer.c 548-552) -/
  flushed_syscallbuf : Bool
  /-- rep_process_signal ran (replayer.c 553-558) -/
  signal_replayed : Bool
  /-- rep_process_syscall ran (replayer.c 559-566) -/
  syscall_replayed : Bool
  /-- the validate flag after the frame (replayer.c 560-562) -/
  validate_after : Bool
  /-- the period passed to reset_hpc at the end of the frame
  (replayer.c 602-604), or none when reset_hpc did not run -/
  hpc_reset_period : Option Nat
deriving DecidableEq

/-- replay_one_trace_frame (replayer.c 505-606): dispatch on the stop
reason, then, unless the frame was a syscall-buffer flush, reset the hpc
with period 0 - except that a USR_EXIT frame deregisters the thread and
returns early (lines 544-547), skipping the post-frame code. -/
def replay_one_trace_frame (validate : Bool) (f : TraceFrame) : FrameResult :=
  match f.stop_reason with
  | .usr_init_scratch_mem =>
    { deregistered := false, scratch_initialized := true,
      flushed_syscallbuf := false, signal_replayed := false,
      syscall_replayed := false, validate_after := validate,
      hpc_reset_period := some 0 }
  | .usr_exit =>
    { deregistered := true, scratch_initialized := false,
      flushed_syscallbuf := false, signal_replayed := false,
      syscall_replayed := false, validate_after := validate,
      hpc_reset_period := none }
  | .usr_flush =>
    { deregistered := false, scratch_initialized := false,
      flushed_syscallbuf := true, signal_replayed := false,
      syscall_replayed := false, validate_after := validate,
      hpc_reset_period := none }
  | .recorded_signal _ =>
    { deregistered := false, scratch_initialized := false,
      flushed_syscallbuf := false, signal_replayed := true,
      syscall_replayed := false, validate_after := validate,
      hpc_reset_period := some 0 }
  | .recorded_syscall no is_exit_state =>
    { deregistered := false, scratch_initialized := false,
      flushed_syscallbuf := false, signal_replayed := false,
      syscall_replayed := true,
      validate_after := validate || (is_exit_state && no == SYS_execve),
      hpc_reset_period := some 0 }

/-- A USR_EXIT frame. -/
def frameExit : TraceFrame :=
  { stop_reason := .usr_exit, global_time := 42 }

/-- An ordinary syscall frame. -/
def frameSyscall : TraceFrame :=
  { stop_reason := .recorded_syscall 5 false, global_time := 43 }

/-- C1: for every TicksCounter state, read_ticks returns 0 when the counter
is not started or not counting; otherwise, whenever it returns a value at
all, letting I be the interrupt counter reading and M the measure counter
reading, it returns I if the measure counter is not open, I if M is greater
than I, and M otherwise. -/
theorem read_ticks_spec (env : PmuEnv) (s : PerfCountersState)
    (r : CounterReadings) :
    (s.started = false ∨ s.counting = false → read_ticks env s r = some 0) ∧
    (∀ v, read_ticks env s r = some v → s.started = true → s.counting = true →
      v = if s.fd_ticks_measure = false then r.interrupt_val
          else if r.interrupt_val < r.measure_val then r.interrupt_val
          else r.measure_val) := by
  constructor
  · intro h
    simp only [read_ticks, if_pos h]
  · intro v h hs hc
    unfold read_ticks at h
    rw [if_neg (by simp [hs, hc])] at h
    split_ifs at h ⊢ with h1 h2 h3 <;> injection h with h <;> omega

/-- Witness for read_ticks_spec at a concrete state: started and counting,
measure open, interrupt reading 3, measure reading 5; the returned value 3
satisfies the tie-break rule. -/
theorem read_ticks_spec_witness :
    (3 : Nat) =
      if pcRunning.fd_ticks_measure = false then rdMeasureHigh.interrupt_val
      else if rdMeasureHigh.interrupt_val < rdMeasureHigh.measure_val then
        rdMeasureHigh.interrupt_val
      else rdMeasureHigh.measure_val :=
  (read_ticks_spec envNoBugs pcRunning rdMeasureHigh).2 3 rfl rfl rfl

/-- After stop, the counter is never started (PerfCounters.cc 479-483). -/
theorem stop_started_eq_false (s : PerfCountersState) :
    (stop s).started = false := by
  unfold stop
  split <;> simp_all

/-- When counters are always recreated, stop_counting fully stops
(PerfCounters.cc 496-497), so the counter is not started afterwards. -/
theorem stop_counting_started_eq_false (env : PmuEnv) (s : PerfCountersState)
    (h : always_recreate_counters env = true) :
    (stop_counting env s).started = false := by
  unfold stop_counting
  simp only [h, if_pos]
  exact stop_started_eq_false _

/-- C3 counterexample: in the IOC_PERIOD-bug configuration
always_recreate_counters is true, yet a reset(0) of an already-started
counter does not recreate the counters from scratch: the generation count
and the file descriptors are untouched, only the ioctl re-arm path runs
(PerfCounters.cc 439-468).  This refutes the claim that with
always_recreate_counters true the counters are fully recreated on each
reset. -/
theorem reset_zero_recreate_counterexample :
    always_recreate_counters envIocBug = true ∧
    pcRunningBug.started = true ∧
    (reset envIocBug pcRunningBug 0).generation = pcRunningBug.generation ∧
    (reset envIocBug pcRunningBug 0).fd_ticks_interrupt
      = pcRunningBug.fd_ticks_interrupt ∧
    (reset envIocBug pcRunningBug 0).interrupt_period = 0 :=
  ⟨rfl, rfl, rfl, rfl, rfl⟩

/-- C3 (amended): for every call reset(0), when always_recreate_counters is
false the interrupt counter is programmed with the very large sample period
2^60 instead of 0; when always_recreate_counters is true the period is left
as zero, and the counters are recreated from scratch whenever the counter is
not currently started - in particular after any stop_counting, which in
this mode fully stops the counters. -/
theorem reset_zero_period_policy (env : PmuEnv) (s : PerfCountersState) :
    (always_recreate_counters env = false →
      (reset env s 0).interrupt_period = 2 ^ 60) ∧
    (always_recreate_counters env = true →
      (reset env s 0).interrupt_period = 0 ∧
      (s.started = false → (reset env s 0).generation = s.generation + 1) ∧
      (reset env (stop_counting env s) 0).generation
        = (stop_counting env s).generation + 1) := by
  refine ⟨fun h => ?_, fun h => ⟨?_, fun hs => ?_, ?_⟩⟩
  · by_cases hs : s.started = false <;> simp [reset, h, hs]
  · by_cases hs : s.started = false <;> simp [reset, h, hs]
  · simp [reset, h, hs]
  · have hs := stop_counting_started_eq_false env s h
    simp [reset, h, hs]

/-- Witness for reset_zero_period_policy: with no bugs reported, reset(0) on
a fresh counter programs the period 2^60. -/
theorem reset_zero_period_policy_witness :
    (reset envNoBugs pcFresh 0).interrupt_period = 2 ^ 60 :=
  (reset_zero_period_policy envNoBugs pcFresh).1 rfl

/-- C4 counterexample: with neither bug probe reporting a bug, a reset of a
never-started counter does not open the useless cycles counter at all
(refuting that it is opened unconditionally); and in the IOC_PERIOD-bug
configuration, where the counter is actually open, stop_counting closes it,
because always_recreate_counters makes stop_counting behave as stop
(PerfCounters.cc 494-507). -/
theorem useless_counter_counterexample :
    pcFresh.started = false ∧
    (reset envNoBugs pcFresh 10).fd_useless_counter = false ∧
    pcRunningBug.fd_useless_counter = true ∧
    (stop_counting envIocBug pcRunningBug).fd_useless_counter = false :=
  ⟨rfl, rfl, rfl, rfl⟩

/-- C4 (amended): on a reset of a not-yet-started TicksCounter, the useless
cycles counter is opened if and only if the IOC_PERIOD bug probe fired and
the engine is not nested under another rr (activate_useless_counter,
PerfCounters.cc 212), or it was already open; when always_recreate_counters
holds - which is the case whenever the opening condition held - stop_counting
behaves as stop and closes it; only when always_recreate_counters is false
does stop_counting leave it untouched. -/
theorem useless_counter_policy (env : PmuEnv) (s : PerfCountersState)
    (p : Nat) :
    (s.started = false →
      (reset env s p).fd_useless_counter
        = (s.fd_useless_counter || activate_useless_counter env)) ∧
    (always_recreate_counters env = true → s.started = true →
      (stop_counting env s).fd_useless_counter = false) ∧
    (always_recreate_counters env = false →
      (stop_counting env s).fd_useless_counter = s.fd_useless_counter) := by
  refine ⟨fun h => ?_, fun h hs => ?_, fun h => ?_⟩
  · by_cases hA : activate_useless_counter env = true <;>
      by_cases hfd : s.fd_useless_counter = true <;>
      simp_all [reset]
  · simp [stop_counting, stop, h, hs]
  · simp [stop_counting, h]

/-- Witness for useless_counter_policy: in the IOC_PERIOD-bug configuration
a reset of the fresh counter opens the useless cycles counter. -/
theorem useless_counter_policy_witness :
    (reset envIocBug pcFresh 10).fd_useless_counter
      = (pcFresh.fd_useless_counter || activate_useless_counter envIocBug) :=
  (useless_counter_policy envIocBug pcFresh 10).1 rfl

/-- A READ_SIGINFO request at the head of the stream bumps the refcount and
the loop continues (diverter.cc 44-52). -/
theorem pdr_cons_read_siginfo (r : Int) (rest : List DbgRequestType) :
    process_debugger_requests r (DbgRequestType.read_siginfo :: rest)
      = process_debugger_requests (r + 1) rest := rfl

/-- A WRITE_SIGINFO request at the head of the stream, with a positive
refcount, drops the refcount and the loop continues (diverter.cc 58-66). -/
theorem pdr_cons_write_siginfo (r : Int) (h : 0 < r)
    (rest : List DbgRequestType) :
    process_debugger_requests r (DbgRequestType.write_siginfo :: rest)
      = process_debugger_requests (r - 1) rest := by
  have hstep : process_one_request r .write_siginfo
      = StepResult.continueLoop (r - 1) := by
    unfold process_one_request
    simp [is_resume_request, h]
  conv_lhs => rw [process_debugger_requests]
  rw [hstep]

/-- A block of n READ_SIGINFO requests adds n to the refcount. -/
theorem pdr_read_siginfo_replicate (n : Nat) (r : Int)
    (l : List DbgRequestType) :
    process_debugger_requests r (List.replicate n .read_siginfo ++ l)
      = process_debugger_requests (r + n) l := by
  induction n generalizing r with
  | zero => simp
  | succ n ih =>
    rw [List.replicate_succ, List.cons_append, pdr_cons_read_siginfo, ih]
    congr 1
    omega

/-- A block of n WRITE_SIGINFO requests takes n back off the refcount, as
long as the remaining refcount never goes below zero. -/
theorem pdr_write_siginfo_replicate (n : Nat) (r : Int) (h : 0 ≤ r)
    (l : List DbgRequestType) :
    process_debugger_requests (r + n) (List.replicate n .write_siginfo ++ l)
      = process_debugger_requests r l := by
  induction n generalizing r with
  | zero => simp
  | succ n ih =>
    rw [List.replicate_succ, List.cons_append,
      pdr_cons_write_siginfo _ (by omega)]
    have heq : r + ((n : Nat) + 1 : Nat) - 1 = r + n := by push_cast; omega
    rw [heq, ih r h]

/-- C2: in a diversion the refcount starts at 1; every READ_SIGINFO request
increments it and every WRITE_SIGINFO request with positive refcount
decrements it, so a block of n READ_SIGINFO requests followed by n
WRITE_SIGINFO requests leaves the request loop in exactly the state it
started from; once the refcount is 0, a resume-class request ends the
diversion, and so does any set/remove-breakpoint request in that dying
state. -/
theorem diversion_refcount_spec :
    divert_initial_refcount = 1 ∧
    (∀ r : Int, process_one_request r .read_siginfo
        = StepResult.continueLoop (r + 1)) ∧
    (∀ r : Int, 0 < r → process_one_request r .write_siginfo
        = StepResult.continueLoop (r - 1)) ∧
    (∀ (n : Nat) (l : List DbgRequestType),
      process_debugger_requests divert_initial_refcount
          (List.replicate n .read_siginfo ++ List.replicate n .write_siginfo
            ++ l)
        = process_debugger_requests divert_initial_refcount l) ∧
    (∀ req, is_resume_request req = true →
      process_one_request 0 req = StepResult.endDiversion 0) ∧
    (∀ req, is_breakpoint_request req = true →
      process_one_request 0 req = StepResult.endDiversion 0) := by
  refine ⟨rfl, fun r => rfl, fun r h => ?_, fun n l => ?_, fun req h => ?_,
    fun req h => ?_⟩
  · unfold process_one_request
    simp [is_resume_request, h]
  · rw [List.append_assoc, pdr_read_siginfo_replicate,
      pdr_write_siginfo_replicate n divert_initial_refcount (by decide)]
  · unfold process_one_request
    rw [if_pos h]
    simp
  · cases req <;> revert h <;> decide

/-- Witness for diversion_refcount_spec: a WRITE_SIGINFO request at
refcount 2 is serviced and drops the refcount to 1. -/
theorem diversion_refcount_spec_witness :
    process_one_request 2 DbgRequestType.write_siginfo
      = StepResult.continueLoop (2 - 1) :=
  diversion_refcount_spec.2.2.1 2 (by norm_num)

/-- C8: the terminating assertion of divert that diversion_refcount equals 0
does not hold on every termination path.  A DREQ_RESTART received while the
refcount is still 1 makes process_debugger_requests return nullptr
immediately (diverter.cc 41-42), so divert breaks out of its loop with
refcount 1 and the assert at diverter.cc 152 fails; the tasks are only
killed and the global handle only cleared on paths on which the refcount
did reach 0 first, as the second conjunct shows for a clean exit. -/
theorem divert_restart_assert_violation :
    divert [DbgRequestType.restart] [] = DivertOutcome.assertRefcountFail 1 ∧
    divert [DbgRequestType.write_siginfo, DbgRequestType.resume_continue] []
      = DivertOutcome.finished := by
  exact ⟨by decide, by decide⟩

/-- Splitting count_addr at a cons cell. -/
theorem count_addr_cons (bp : Breakpoint) (t : List Breakpoint) (a : Nat) :
    count_addr (bp :: t) a
      = (if bp.addr = a then 1 else 0) + count_addr t a := by
  by_cases h : bp.addr = a <;>
    simp [count_addr, List.filter_cons, h] <;> omega

/-- A replicate of null entries carries no non-null address. -/
theorem count_addr_replicate_null (n : Nat) (a : Nat) (ha : a ≠ 0) :
    count_addr
      (List.replicate n { addr := 0, overwritten_data := 0 }) a = 0 := by
  induction n with
  | zero => rfl
  | succ n ih =>
    rw [List.replicate_succ, count_addr_cons, ih]
    simp
    omega

/-- Effect of a successful set_sw_breakpoint on per-address entry counts:
the claimed slot had a null address, so every non-null address keeps its
count, except that the target address gains one entry. -/
theorem count_addr_set_sw_breakpoint (mem : Nat → Nat) (a : Nat) :
    ∀ (t t' : List Breakpoint) (ws : List (Nat × Nat)),
      set_sw_breakpoint mem a t = some (t', ws) →
      ∀ b, b ≠ 0 →
        count_addr t' b = (if a = b then 1 else 0) + count_addr t b := by
  intro t
  induction t with
  | nil => intro t' ws hset; cases hset
  | cons bp rest ih =>
    intro t' ws hset b hb
    unfold set_sw_breakpoint at hset
    by_cases h : bp.addr = 0
    · rw [if_pos h] at hset
      injection hset with hset
      injection hset with h1 h2
      subst h1
      rw [count_addr_cons, count_addr_cons, h]
      rw [if_neg (by omega : ¬(0 : Nat) = b)]
      simp
    · rw [if_neg h] at hset
      cases hrec : set_sw_breakpoint mem a rest with
      | none => rw [hrec] at hset; cases hset
      | some p =>
        obtain ⟨rest2, ws2⟩ := p
        rw [hrec] at hset
        injection hset with hset
        injection hset with h1 h2
        subst h1
        rw [count_addr_cons, count_addr_cons, ih rest2 ws2 hrec b hb]
        omega

/-- remove_sw_breakpoint never increases the number of entries carrying a
non-null address. -/
theorem count_addr_remove_le (a : Nat) (t : List Breakpoint) (b : Nat)
    (hb : b ≠ 0) :
    count_addr (remove_sw_breakpoint a t).1 b ≤ count_addr t b := by
  induction t with
  | nil => simp [remove_sw_breakpoint]
  | cons bp rest ih =>
    unfold remove_sw_breakpoint
    by_cases h : bp.addr = a
    · rw [if_pos h]
      show count_addr ({ addr := 0, overwritten_data := 0 } :: rest) b
        ≤ count_addr (bp :: rest) b
      rw [count_addr_cons, count_addr_cons]
      have h0 : ¬(({ addr := 0, overwritten_data := 0 } : Breakpoint).addr
          = b) := by
        simp
        omega
      rw [if_neg h0]
      omega
    · rw [if_neg h]
      show count_addr (bp :: (remove_sw_breakpoint a rest).1) b
        ≤ count_addr (bp :: rest) b
      rw [count_addr_cons, count_addr_cons]
      omega

/-- remove_sw_breakpoint zeroes exactly the first matching entry, writes
the saved byte back at the breakpoint address, and does not warn. -/
theorem remove_sw_breakpoint_first_match (a : Nat) (pre : List Breakpoint)
    (bp : Breakpoint) (post : List Breakpoint) (hbp : bp.addr = a)
    (hpre : ∀ x ∈ pre, x.addr ≠ a) :
    remove_sw_breakpoint a (pre ++ bp :: post)
      = (pre ++ { addr := 0, overwritten_data := 0 } :: post,
         [(bp.addr, bp.overwritten_data)], false) := by
  induction pre with
  | nil =>
    simp only [List.nil_append]
    unfold remove_sw_breakpoint
    rw [if_pos hbp]
  | cons x pre ih =>
    have hx : x.addr ≠ a := hpre x (by simp)
    simp only [List.cons_append]
    unfold remove_sw_breakpoint
    rw [if_neg hx, ih (fun y hy => hpre y (by simp [hy]))]

/-- C5 counterexample: starting from the zero-initialized table, issuing
SetSwBreak twice for the same (non-null) address without an intervening
remove leaves two entries for that address: set_sw_breakpoint claims the
first unallocated slot without checking whether the address is already
present (replayer.c 188-190), so the uniqueness invariant is not maintained
at all times. -/
theorem breakpoint_duplicate_counterexample :
    ((set_sw_breakpoint mem_nop 0x400500 breakpoint_table_init).bind
        fun p => set_sw_breakpoint mem_nop 0x400500 p.1).map
      (fun p => count_addr p.1 0x400500) = some 2 ∧
    (0x400500 : Nat) ≠ 0 := by
  constructor
  · rfl
  · decide

/-- C5 (amended): the breakpoint table starts with at most one entry per
non-null address, and keeps that invariant under remove_sw_breakpoint and
under any set_sw_breakpoint for an address not currently in the table;
removing a breakpoint zeroes its (first matching) table entry.  A second
SetSwBreak for an address already present, however, creates a duplicate
entry (see the counterexample). -/
theorem breakpoint_table_unique :
    addr_unique breakpoint_table_init ∧
    (∀ (mem : Nat → Nat) (a : Nat) (t t' : List Breakpoint)
        (ws : List (Nat × Nat)), a ≠ 0 → addr_unique t →
      count_addr t a = 0 → set_sw_breakpoint mem a t = some (t', ws) →
      addr_unique t') ∧
    (∀ (a : Nat) (t : List Breakpoint), addr_unique t →
      addr_unique (remove_sw_breakpoint a t).1) ∧
    (∀ (a : Nat) (pre : List Breakpoint) (bp : Breakpoint)
        (post : List Breakpoint), bp.addr = a → (∀ x ∈ pre, x.addr ≠ a) →
      remove_sw_breakpoint a (pre ++ bp :: post)
        = (pre ++ { addr := 0, overwritten_data := 0 } :: post,
           [(bp.addr, bp.overwritten_data)], false)) := by
  refine ⟨?_, ?_, ?_, ?_⟩
  · intro a ha
    rw [breakpoint_table_init, count_addr_replicate_null _ _ ha]
    omega
  · intro mem a t t' ws ha huniq hcount hset b hb
    rw [count_addr_set_sw_breakpoint mem a t t' ws hset b hb]
    by_cases hab : a = b
    · subst hab
      rw [hcount]
      simp
    · rw [if_neg hab]
      have := huniq b hb
      omega
  · intro a t huniq b hb
    exact le_trans (count_addr_remove_le a t b hb) (huniq b hb)
  · exact remove_sw_breakpoint_first_match

/-- Witness for breakpoint_table_unique: removing address 7 from a table
whose second entry holds it zeroes that entry, writes back the saved byte
and does not warn. -/
theorem breakpoint_table_unique_witness :
    remove_sw_breakpoint 7
        ([{ addr := 3, overwritten_data := 1 }]
          ++ { addr := 7, overwritten_data := 9 }
            :: [{ addr := 5, overwritten_data := 2 }])
      = ([{ addr := 3, overwritten_data := 1 }]
          ++ { addr := 0, overwritten_data := 0 }
            :: [{ addr := 5, overwritten_data := 2 }],
         [(7, 9)], false) :=
  breakpoint_table_unique.2.2.2 7 [{ addr := 3, overwritten_data := 1 }]
    { addr := 7, overwritten_data := 9 }
    [{ addr := 5, overwritten_data := 2 }] rfl (by decide)

/-- C9: when every one of the 128 breakpoint-table slots is occupied (all
addresses non-null), set_sw_breakpoint finds no free slot and fails its
assert("Sorry, ran out of breakpoints"), aborting instead of replying an
error to the debugger. -/
theorem set_sw_breakpoint_full_aborts (mem : Nat → Nat) (a : Nat)
    (t : List Breakpoint) (_hlen : t.length = MAX_NUM_BREAKPOINTS)
    (hfull : ∀ bp ∈ t, bp.addr ≠ 0) :
    set_sw_breakpoint mem a t = none := by
  clear _hlen
  induction t with
  | nil => rfl
  | cons bp rest ih =>
    unfold set_sw_breakpoint
    rw [if_neg (hfull bp (by simp)), ih (fun x hx => hfull x (by simp [hx]))]

set_option maxRecDepth 2000 in
/-- Witness for set_sw_breakpoint_full_aborts: a concrete full table of 128
occupied slots makes set_sw_breakpoint abort. -/
theorem set_sw_breakpoint_full_aborts_witness :
    set_sw_breakpoint mem_nop 0x400500 bp_full_table = none :=
  set_sw_breakpoint_full_aborts mem_nop 0x400500 bp_full_table (by decide)
    (by decide)

/-- C10: when no table entry matches the requested address,
remove_sw_breakpoint warns and returns with the table untouched and no
write to the tracee's memory. -/
theorem remove_sw_breakpoint_missing (a : Nat) (t : List Breakpoint)
    (h : find_breakpoint a t = none) :
    remove_sw_breakpoint a t = (t, [], true) := by
  induction t with
  | nil => rfl
  | cons bp rest ih =>
    unfold find_breakpoint at h
    by_cases hbp : bp.addr = a
    · rw [if_pos hbp] at h
      cases h
    · rw [if_neg hbp] at h
      unfold remove_sw_breakpoint
      rw [if_neg hbp]
      simp [ih h]

/-- Witness for remove_sw_breakpoint_missing: removing address 99 from a
table that does not contain it warns and changes nothing. -/
theorem remove_sw_breakpoint_missing_witness :
    remove_sw_breakpoint 99
        [{ addr := 3, overwritten_data := 1 },
         { addr := 0, overwritten_data := 0 }]
      = ([{ addr := 3, overwritten_data := 1 },
          { addr := 0, overwritten_data := 0 }], [], true) :=
  remove_sw_breakpoint_missing 99
    [{ addr := 3, overwritten_data := 1 },
     { addr := 0, overwritten_data := 0 }] (by decide)

/-- C6 counterexample: a USR_EXIT frame has a stop reason different from
USR_FLUSH, yet the ticks counter is not reset at the end of the frame:
replay_one_trace_frame deregisters the thread and returns early
(replayer.c 544-547), never reaching the reset_hpc call at lines 602-604. -/
theorem post_frame_hpc_counterexample :
    frameExit.stop_reason ≠ StopReason.usr_flush ∧
    (replay_one_trace_frame true frameExit).hpc_reset_period ≠ some 0 := by
  exact ⟨by decide, by decide⟩

/-- C6 (amended): for every replayed trace frame whose stop reason is
neither the syscall-buffer flush USR_FLUSH nor the task exit USR_EXIT
(which returns early), the ticks counter is reset with period 0 at the end
of processing the frame. -/
theorem post_frame_hpc_reset (validate : Bool) (f : TraceFrame)
    (hflush : f.stop_reason ≠ StopReason.usr_flush)
    (hexit : f.stop_reason ≠ StopReason.usr_exit) :
    (replay_one_trace_frame validate f).hpc_reset_period = some 0 := by
  cases h : f.stop_reason <;> simp_all [replay_one_trace_frame]

/-- Witness for post_frame_hpc_reset: an ordinary syscall frame ends with a
reset of the ticks counter with period 0. -/
theorem post_frame_hpc_reset_witness :
    (replay_one_trace_frame false frameSyscall).hpc_reset_period = some 0 :=
  post_frame_hpc_reset false frameSyscall (by decide) (by decide)

/-- C7: after each ptrace advance towards a syscall boundary, the pending
signal is dispatched as follows: 0 means the boundary was reached; SIGCHLD
is swallowed and the advance retried (so any run of SIGCHLDs is
transparent); SIGTRAP makes the function return nonzero, stopped at a
trap; any other signal enters emergency debug. -/
theorem cont_syscall_boundary_spec (sig : Nat) (rest : List Nat) :
    (sig = 0 →
      cont_syscall_boundary (sig :: rest) = ContOutcome.boundary_reached) ∧
    (sig = SIGCHLD →
      cont_syscall_boundary (sig :: rest) = cont_syscall_boundary rest) ∧
    (sig = SIGTRAP →
      cont_syscall_boundary (sig :: rest) = ContOutcome.stopped_at_trap) ∧
    (sig ≠ 0 → sig ≠ SIGCHLD → sig ≠ SIGTRAP →
      cont_syscall_boundary (sig :: rest) = ContOutcome.emergency_debug sig) ∧
    (∀ n : Nat,
      cont_syscall_boundary (List.replicate n SIGCHLD ++ sig :: rest)
        = cont_syscall_boundary (sig :: rest)) := by
  refine ⟨fun h => ?_, fun h => ?_, fun h => ?_, fun h0 hchld htrap => ?_,
    fun n => ?_⟩
  · subst h; rfl
  · subst h; rfl
  · subst h; rfl
  · unfold cont_syscall_boundary
    rw [if_neg h0, if_neg hchld, if_neg htrap]
  · induction n with
    | zero => rfl
    | succ n ih =>
      rw [List.replicate_succ, List.cons_append]
      rw [show cont_syscall_boundary
          (SIGCHLD :: (List.replicate n SIGCHLD ++ sig :: rest))
          = cont_syscall_boundary (List.replicate n SIGCHLD ++ sig :: rest)
        from rfl]
      exact ih

/-- Witness for cont_syscall_boundary_spec: an unrecorded signal 9 sends
the replay into emergency debug. -/
theorem cont_syscall_boundary_spec_witness :
    cont_syscall_boundary [9] = ContOutcome.emergency_debug 9 :=
  (cont_syscall_boundary_spec 9 []).2.2.2.1 (by decide) (by decide)
    (by decide)

end RR
